import Mathlib

/-!
Verification development for the Seer-Engine backend (Python).

The relevant source files are shallowly embedded here:

* `src/backend/models/types.py`    — the Pydantic data model.  Pydantic
  validation (`Field(ge=..., le=...)`, `Literal[...]`, required fields) is
  embedded as smart constructors returning `Option`: construction fails
  (raises `ValidationError` in Python) exactly when a constraint is violated.
* `src/backend/services/openai_service.py`  — the oracle adapter
  (`OpenAIService`).  The remote LLM call is a fallible environment action;
  it is embedded as an explicit reply value passed to the function
  (exception raised / empty content / malformed JSON / parsed JSON object).
  Prompt construction has no effect on the returned value and is omitted.
* `src/backend/services/opinion_service.py` — the venue adapter
  (`OpinionService`).  The venue SDK is embedded as an explicit
  environment function from the submitted order input to the venue outcome
  (exception raised, or a response carrying `errno`/`errmsg`/data).
  Non-deterministic bookkeeping fields (`uuid`, wall-clock timestamps) and
  logging are omitted; they do not affect any claim.

Numeric fields use `Rat`: every constant appearing in the source
(0, 0.5, 0.01, 0.99, 1, 5) is exactly representable, and the arithmetic
performed on them (`1 - p`, negation, comparisons) is exact in both IEEE
double and `Rat`, so the embedding is faithful on the properties stated.
-/

/-- List-prefix test (structural, so that concrete runs reduce in the
kernel). -/
def listPrefixOf : List Char → List Char → Bool
  | [], _ => true
  | _ :: _, [] => false
  | a :: as, b :: bs => a == b && listPrefixOf as bs

/-- List-infix test (structural). -/
def listInfixOf (pat : List Char) : List Char → Bool
  | [] => listPrefixOf pat []
  | c :: cs => listPrefixOf pat (c :: cs) || listInfixOf pat cs

/-- Bool substring test: Python's `pat in s`. -/
def strContains (s pat : String) : Bool :=
  listInfixOf pat.data s.data

/-- Python `s.lower()` (ASCII, which is all the source compares). -/
def lowerStr (s : String) : String := String.mk (s.data.map Char.toLower)

/-- Python `s.upper()` (ASCII). -/
def upperStr (s : String) : String := String.mk (s.data.map Char.toUpper)

/-- Decimal digits to a number; `none` on a non-digit or the empty list. -/
def digitsToNat? : List Char → Option Nat
  | [] => none
  | ds => go ds 0
where
  go : List Char → Nat → Option Nat
    | [], acc => some acc
    | c :: cs, acc =>
      if c.isDigit then go cs (acc * 10 + (c.toNat - 48)) else none

/-- Python `int(s)` as a fallible parse, on the plain
`[+-]?digits` grammar (the service's market ids are plain decimal;
Python's extra tolerance for surrounding whitespace and underscores is
not exercised). -/
def strToInt? (s : String) : Option Int :=
  match s.data with
  | '-' :: ds => (digitsToNat? ds).map fun n => -(n : Int)
  | '+' :: ds => (digitsToNat? ds).map fun n => (n : Int)
  | ds => (digitsToNat? ds).map fun n => (n : Int)

/-- Python truthiness filter for an optional string: `None` and `""` are
falsy.  Returns `some s` exactly when the value is truthy. -/
def truthyS : Option String → Option String
  | some s => if s = "" then none else some s
  | none => none

/-- Python `a or b or ... or dflt` over string-valued `dict.get` results:
first truthy value, else the (possibly falsy) default. -/
def firstTruthyS (xs : List (Option String)) (dflt : String) : String :=
  match xs.filterMap truthyS with
  | [] => dflt
  | s :: _ => s

/-- Python truthiness filter for an optional number: `None` and `0` are falsy. -/
def truthyQ : Option Rat → Option Rat
  | some q => if q = 0 then none else some q
  | none => none

/-- Python `a or b or ... or dflt` over numeric `dict.get` results. -/
def firstTruthyQ (xs : List (Option Rat)) (dflt : Rat) : Rat :=
  match xs.filterMap truthyQ with
  | [] => dflt
  | q :: _ => q

/-- Python `a or b` where `a` is an optional string and the result is kept
as-is (possibly falsy): used for `getattr(d,'tx_hash',None) or
getattr(d,'transactionHash',None)`. -/
def pyOrOpt (a b : Option String) : Option String :=
  match truthyS a with
  | some s => some s
  | none => b

/-- Python truthiness of an `Optional[str]` value as a Bool
(`bool(x)`: `None` and `""` are falsy). -/
def optTruthy : Option String → Bool
  | some s => s != ""
  | none => false

/-- Python `str(x)` for an `Optional[str]`: `str(None) = "None"`. -/
def pyStr : Option String → String
  | some s => s
  | none => "None"

-- ========== models/types.py ==========

/-- `Outcome` (types.py).  `probability: float = Field(ge=0, le=1)`. -/
structure Outcome where
  id : String
  name : String
  probability : Rat
  change24h : Rat
  tokenId : Option String
deriving DecidableEq, Repr

/-- Pydantic construction of `Outcome`: fails iff `probability ∉ [0,1]`. -/
def mkOutcome (id name : String) (probability change24h : Rat)
    (tokenId : Option String) : Option Outcome :=
  if 0 ≤ probability ∧ probability ≤ 1 then
    some ⟨id, name, probability, change24h, tokenId⟩
  else none

/-- `Market` (types.py). `status: Literal["active","resolved","pending"]`. -/
structure Market where
  id : String
  question : String
  category : String
  volume : Rat
  liquidity : Rat
  outcomes : List Outcome
  endDate : String
  status : String
  yesTokenId : Option String
  noTokenId : Option String
  yesLabel : String
  noLabel : String
deriving DecidableEq, Repr

/-- Pydantic construction of `Market`: the `Literal` status values are the
only constraint at this level (outcomes are validated by `mkOutcome`). -/
def mkMarket (id question category : String) (volume liquidity : Rat)
    (outcomes : List Outcome) (endDate status : String)
    (yesTokenId noTokenId : Option String) (yesLabel noLabel : String) :
    Option Market :=
  if status = "active" || status = "resolved" || status = "pending" then
    some ⟨id, question, category, volume, liquidity, outcomes, endDate,
          status, yesTokenId, noTokenId, yesLabel, noLabel⟩
  else none

/-- `TradeDecision` (types.py).
`suggestedPrice: float = Field(ge=0.01, le=0.99, ...)`;
`sizeUsdc` defaults to `5.0`.  The `AliasChoices` for the price field
(`suggested_price` / `price` / `suggestedPrice`) all feed this one field. -/
structure TradeDecision where
  action : String
  side : Option String
  suggestedPrice : Rat
  sizeUsdc : Rat
deriving DecidableEq, Repr

/-- JSON object shape for a `trade_decision`, as produced by `json.loads`:
each field may be absent.  The three accepted aliases of the price key are
collapsed into the single `suggested_price` slot. -/
structure ParsedTradeDecision where
  action : Option String
  side : Option String
  suggested_price : Option Rat
  size_usdc : Option Rat
deriving DecidableEq, Repr

/-- Pydantic validation of `TradeDecision`: `action` is a required
`Literal["BUY","SELL","HOLD"]`, `suggestedPrice` is required and must lie
in `[0.01, 0.99]` (NOT clamped: an out-of-range value raises
`ValidationError`), `side` defaults to `None`, `sizeUsdc` to `5.0`. -/
def mkTradeDecision (p : ParsedTradeDecision) : Option TradeDecision :=
  match p.action, p.suggested_price with
  | some a, some sp =>
    if (a = "BUY" || a = "SELL" || a = "HOLD")
        && decide ((1 : Rat)/100 ≤ sp) && decide (sp ≤ (99 : Rat)/100) then
      some ⟨a, p.side, sp, p.size_usdc.getD 5⟩
    else none
  | _, _ => none

/-- `TradeExecution` (types.py).  The Python model also carries a fresh
`uuid` and a wall-clock `timestamp`; both are environment noise and
omitted.  `status` is `Literal["pending","confirmed","failed"]`; every
construction site below uses one of these literals. -/
structure TradeExecution where
  marketId : String
  side : String
  amount : Rat
  price : Rat
  status : String
  error : Option String
  txHash : Option String
deriving DecidableEq, Repr

/-- `MarketImpact` (types.py). -/
structure MarketImpact where
  marketId : String
  market : Market
  relevanceScore : Rat
  sentiment : String
  impactScore : Rat
  confidence : Rat
  reasoning : String
  reasoningSteps : Option (List String)
  tradeDecision : TradeDecision
deriving DecidableEq, Repr

/-- `GPTMarketFilterResponse` (types.py): all three fields required,
no other constraint — in particular NO bound on the length of
`relevant_market_ids`. -/
structure GPTMarketFilterResponse where
  is_relevant : Bool
  relevant_market_ids : List String
  reasoning_summary : String
deriving DecidableEq, Repr

/-- JSON object shape for the filter reply. -/
structure ParsedFilter where
  is_relevant : Option Bool
  relevant_market_ids : Option (List String)
  reasoning_summary : Option String
deriving DecidableEq, Repr

/-- Pydantic validation of `GPTMarketFilterResponse`: the three fields are
required; there is no length constraint on `relevant_market_ids`. -/
def mkGPTFilter (p : ParsedFilter) : Option GPTMarketFilterResponse :=
  match p.is_relevant, p.relevant_market_ids, p.reasoning_summary with
  | some r, some ids, some s => some ⟨r, ids, s⟩
  | _, _, _ => none

/-- `GPTMarketAnalysisResponse` (types.py). -/
structure GPTMarketAnalysisResponse where
  market_id : String
  sentiment : String
  impact_score : Rat
  confidence : Rat
  reasoning_steps : Option (List String)
  trade_decision : TradeDecision
  human_readable_reason : String
deriving DecidableEq, Repr

/-- JSON object shape for the analysis reply. -/
structure ParsedAnalysis where
  market_id : Option String
  sentiment : Option String
  impact_score : Option Rat
  confidence : Option Rat
  reasoning_steps : Option (List String)
  trade_decision : Option ParsedTradeDecision
  human_readable_reason : Option String
deriving DecidableEq, Repr

/-- Pydantic validation of `GPTMarketAnalysisResponse`:
`sentiment` is `Literal["POSITIVE","NEGATIVE","NEUTRAL"]`,
`impact_score` and `confidence` carry `Field(ge=0, le=1)`,
`trade_decision` is validated by `mkTradeDecision`,
`reasoning_steps` is optional, the rest are required. -/
def mkGPTAnalysis (p : ParsedAnalysis) : Option GPTMarketAnalysisResponse :=
  match p.market_id, p.sentiment, p.impact_score, p.confidence,
        p.trade_decision, p.human_readable_reason with
  | some mid, some sent, some imp, some conf, some ptd, some reason =>
    if (sent = "POSITIVE" || sent = "NEGATIVE" || sent = "NEUTRAL")
        && decide ((0 : Rat) ≤ imp) && decide (imp ≤ 1)
        && decide ((0 : Rat) ≤ conf) && decide (conf ≤ 1) then
      match mkTradeDecision ptd with
      | some td => some ⟨mid, sent, imp, conf, p.reasoning_steps, td, reason⟩
      | none => none
    else none
  | _, _, _, _, _, _ => none

/-- `GPTMarketSelectionResponse` (types.py):
`confidence_in_selection: float = Field(ge=0, le=1)`. -/
structure GPTMarketSelectionResponse where
  selected_market_id : String
  selection_reasoning : String
  comparative_analysis : String
  confidence_in_selection : Rat
deriving DecidableEq, Repr

/-- JSON object shape for the selection reply. -/
structure ParsedSelection where
  selected_market_id : Option String
  selection_reasoning : Option String
  comparative_analysis : Option String
  confidence_in_selection : Option Rat
deriving DecidableEq, Repr

/-- Pydantic validation of `GPTMarketSelectionResponse`. -/
def mkGPTSelection (p : ParsedSelection) : Option GPTMarketSelectionResponse :=
  match p.selected_market_id, p.selection_reasoning,
        p.comparative_analysis, p.confidence_in_selection with
  | some mid, some reasn, some comp, some conf =>
    if decide ((0 : Rat) ≤ conf) && decide (conf ≤ 1) then
      some ⟨mid, reasn, comp, conf⟩
    else none
  | _, _, _, _ => none

-- ========== services/openai_service.py ==========

/-- Outcome of one chat-completion call as seen by the `try` block:
the call raised; it returned with falsy (`None`/`""`) content; the content
failed `json.loads` (or parsed to a non-object, which fails validation the
same way); or it parsed to a JSON object of the given shape. -/
inductive LLMReply (α : Type) where
  | raises
  | emptyContent
  | badJson
  | json (p : α)
deriving DecidableEq, Repr

namespace OpenAIService

/-- `OpenAIService.filter_relevant_markets` (openai_service.py, Stage A).
The tweet and market list only shape the prompt, never the returned value,
so they are omitted.  Exceptions anywhere in the `try` block (API call,
`json.loads`, Pydantic validation) all land in the same `except`, which
returns the `"Analysis failed"` fallback; falsy content returns the
`"No response from LLM"` fallback. -/
def filter_relevant_markets (reply : LLMReply ParsedFilter) :
    GPTMarketFilterResponse :=
  match reply with
  | .raises => ⟨false, [], "Analysis failed"⟩
  | .emptyContent => ⟨false, [], "No response from LLM"⟩
  | .badJson => ⟨false, [], "Analysis failed"⟩
  | .json p =>
    match mkGPTFilter p with
    | some result => result
    | none => ⟨false, [], "Analysis failed"⟩

/-- `OpenAIService._get_default_analysis` (openai_service.py). -/
def _get_default_analysis (market_id : String) : GPTMarketAnalysisResponse :=
  { market_id := market_id
    sentiment := "NEUTRAL"
    impact_score := 0
    confidence := 0
    reasoning_steps := none
    trade_decision :=
      { action := "HOLD", side := none, suggestedPrice := 1/2, sizeUsdc := 0 }
    human_readable_reason := "Analysis could not be completed" }

/-- `OpenAIService.analyze_market_impact` (openai_service.py, Stage B).
Before the call the function reads `market.outcomes` and other market
fields only to build the prompt; none of that affects the returned value.
Any exception in the `try` block (API call, `json.loads`, Pydantic
validation of the parsed object) returns `_get_default_analysis market.id`,
as does falsy content. -/
def analyze_market_impact (market : Market) (reply : LLMReply ParsedAnalysis) :
    GPTMarketAnalysisResponse :=
  match reply with
  | .raises => _get_default_analysis market.id
  | .emptyContent => _get_default_analysis market.id
  | .badJson => _get_default_analysis market.id
  | .json p =>
    match mkGPTAnalysis p with
    | some result => result
    | none => _get_default_analysis market.id

/-- `OpenAIService.select_best_market` (openai_service.py, Stage C).
The oracle is modelled as a thunk so that not invoking it is expressible:
the empty and singleton branches return before the `try` block is entered.
On the multi-candidate path, an exception or falsy content yields `none`. -/
def select_best_market (impacts : List MarketImpact)
    (oracle : Unit → LLMReply ParsedSelection) :
    Option GPTMarketSelectionResponse :=
  match impacts with
  | [] => none
  | [imp] =>
    some ⟨imp.marketId, "Only one actionable market available",
          "No comparison needed - single candidate", 1⟩
  | _ =>
    match oracle () with
    | .raises => none
    | .emptyContent => none
    | .badJson => none
    | .json p =>
      match mkGPTSelection p with
      | some result => some result
      | none => none

end OpenAIService

-- ========== services/opinion_service.py ==========

/-- `OrderSide` from the venue SDK. -/
inductive OrderSide where
  | BUY
  | SELL
deriving DecidableEq, Repr

/-- `OrderType` from the venue SDK. -/
inductive OrderType where
  | MARKET_ORDER
  | LIMIT_ORDER
deriving DecidableEq, Repr

/-- `PlaceOrderDataInput` from the venue SDK, with the fields
`place_order` sets. -/
structure PlaceOrderDataInput where
  marketId : Int
  tokenId : String
  side : OrderSide
  price : String
  makerAmountInQuoteToken : Rat
  orderType : OrderType
deriving DecidableEq, Repr

/-- The `result.data` payload of a successful venue response
(`tx_hash`/`transactionHash` read with truthy-or; `order_id` is only
logged and omitted). -/
structure VenueOrderData where
  tx_hash : Option String
  transactionHash : Option String
deriving DecidableEq, Repr

/-- Outcome of `client.place_order` as seen by the `try` block: the SDK
raised an exception with message `msg` (`str(e)`), or responded with
`errno` (`getattr` default `-1` is the caller's concern), optional
`errmsg`, and optional nested `result.data`. -/
inductive VenueResult where
  | raises (msg : String)
  | responds (errno : Int) (errmsg : Option String) (dat : Option VenueOrderData)
deriving DecidableEq, Repr

/-- One raw market record as delivered by the venue SDK
(`raw.to_dict()`), restricted to the keys the service reads.  Each key may
be absent (`none`).  The `id` key is named `idKey` because `Market` also
has an `id` field.  Values are typed as the service consumes them
(strings for labels/ids/status, numbers for prices). -/
structure RawMarket where
  statusEnum : Option String
  status : Option String
  marketId : Option String
  market_id : Option String
  idKey : Option String
  marketTitle : Option String
  market_title : Option String
  question : Option String
  yesLabel : Option String
  no_label : Option String
  noLabel : Option String
  yes_label : Option String
  yesPrice : Option Rat
  yes_price : Option Rat
  change24h : Option Rat
  change_24h : Option Rat
  cutoffAt : Option String
  end_date : Option String
  cutoff_at : Option String
  yesTokenId : Option String
  yes_token_id : Option String
  noTokenId : Option String
  no_token_id : Option String
  category : Option String
  volume : Option Rat
  liquidity : Option Rat
deriving DecidableEq, Repr

namespace OpinionService

/-- The status string computed in `_is_activated`:
`str(data.get('statusEnum') or data.get('status', '')).lower()` —
note the explicit `''` default on the `status` key. -/
def isActStatusStr (raw : RawMarket) : String :=
  lowerStr (match truthyS raw.statusEnum with
   | some s => s
   | none => raw.status.getD "")

/-- The status string computed in `_normalize_market`:
`str(data.get('statusEnum') or data.get('status')).lower()` —
here a missing `status` key yields Python `str(None) = "None"`. -/
def normStatusStr (raw : RawMarket) : String :=
  lowerStr (match truthyS raw.statusEnum with
   | some s => s
   | none => pyStr raw.status)

/-- `OpinionService._is_activated` (opinion_service.py): `'activated'`
occurs in the status string and both `yesTokenId` and `noTokenId` are
truthy (present and non-empty).  The `to_dict`/`dict` dispatch and the
blanket `except: return False` cannot fire on these typed fields. -/
def _is_activated (raw : RawMarket) : Bool :=
  strContains (isActStatusStr raw) "activated"
    && (optTruthy raw.yesTokenId && optTruthy raw.noTokenId)

/-- `OpinionService._normalize_market` (opinion_service.py).  Pydantic
validation failures inside the `Market(...)` call are caught by the
enclosing `except` and return `None`; that is exactly the `Option.bind`
chain through `mkOutcome`/`mkMarket` below. -/
def _normalize_market (raw : RawMarket) : Option Market :=
  let status_str := normStatusStr raw
  let is_tradeable := strContains status_str "created"
    || strContains status_str "activated"
    || (status_str == "1" || status_str == "2" || status_str == "active")
  let is_closed := strContains status_str "resolved"
    || strContains status_str "canceled"
    || strContains status_str "closed"
  if !is_tradeable || is_closed then none
  else
    let market_id := firstTruthyS [raw.marketId, raw.market_id, raw.idKey] ""
    let title := firstTruthyS [raw.marketTitle, raw.market_title, raw.question]
      "Untitled market"
    let yes_label := firstTruthyS [raw.yesLabel, raw.yes_label] "YES"
    let no_label := firstTruthyS [raw.noLabel, raw.no_label] "NO"
    let yes_price := firstTruthyQ [raw.yesPrice, raw.yes_price] (1/2)
    let change_24h := firstTruthyQ [raw.change24h, raw.change_24h] 0
    let end_date := firstTruthyS [raw.cutoffAt, raw.end_date, raw.cutoff_at] ""
    let yes_token_id := firstTruthyS [raw.yesTokenId, raw.yes_token_id] ""
    let no_token_id := firstTruthyS [raw.noTokenId, raw.no_token_id] ""
    let prob := if yes_price ≠ 0 then yes_price else 1/2
    (mkOutcome (market_id ++ "-yes") (upperStr yes_label) prob change_24h
        (if yes_token_id ≠ "" then some yes_token_id else none)).bind fun o1 =>
      (mkOutcome (market_id ++ "-no") (upperStr no_label) (1 - prob) (-change_24h)
          (if no_token_id ≠ "" then some no_token_id else none)).bind fun o2 =>
        mkMarket market_id title (raw.category.getD "General")
          (firstTruthyQ [raw.volume] 0) (firstTruthyQ [raw.liquidity] 0)
          [o1, o2] end_date "active"
          (if yes_token_id ≠ "" then some yes_token_id else none)
          (if no_token_id ≠ "" then some no_token_id else none)
          (upperStr yes_label) (upperStr no_label)

/-- `OpinionService.get_markets` (opinion_service.py).  The SDK call
(with its response-shape probing) is embedded as its outcome: an
exception, or the extracted `markets_data` list (a missing
`result`/`list` attribute yields the empty list).  The loop keeps a raw
market iff `_is_activated`, normalization succeeds, and the normalized
market's two token ids are truthy. -/
def get_markets (resp : Except String (List RawMarket)) : List Market :=
  match resp with
  | .error _ => []
  | .ok markets_data =>
    markets_data.filterMap fun raw =>
      if _is_activated raw then
        match _normalize_market raw with
        | some market =>
          if optTruthy market.yesTokenId && optTruthy market.noTokenId then
            some market
          else none
        | none => none
      else none

/-- `OpinionService.place_order` (opinion_service.py).  The leading
`enable_trading` call is wrapped in its own `try/except` and has no
observable effect here.  Returns the order input actually handed to
`client.place_order` (`none` when no submission was attempted) together
with the returned `TradeExecution`.  A non-integer `market_id` makes
`int(market_id)` raise; the message below is Python's. -/
def place_order (market_id side : String) (amount price : Rat)
    (token_id : Option String) (venue : PlaceOrderDataInput → VenueResult) :
    Option PlaceOrderDataInput × TradeExecution :=
  match truthyS token_id with
  | none =>
    (none, ⟨market_id, side, amount, price, "failed",
            some "Missing token_id", none⟩)
  | some tok =>
    match strToInt? market_id with
    | none =>
      (none, ⟨market_id, side, amount, price, "failed",
              some ("invalid literal for int() with base 10: " ++ market_id),
              none⟩)
    | some mid =>
      let order_input : PlaceOrderDataInput :=
        ⟨mid, tok, OrderSide.BUY, "0", amount, OrderType.MARKET_ORDER⟩
      match venue order_input with
      | .raises msg =>
        (some order_input,
         ⟨market_id, side, amount, price, "failed", some msg, none⟩)
      | .responds errno errmsg dat =>
        if errno = 0 then
          (some order_input,
           ⟨market_id, side, amount, price, "confirmed", none,
            match dat with
            | some d => pyOrOpt d.tx_hash d.transactionHash
            | none => none⟩)
        else
          (some order_input,
           ⟨market_id, side, amount, price, "failed",
            some ("SDK Error " ++ toString errno ++ ": "
              ++ errmsg.getD "Unknown error"),
            none⟩)

end OpinionService

-- ========== Market Catalog Cache (spec §4.2) ==========

/-- Modelled from the spec: the Market Catalog Cache.  The component that
holds the market set between refreshes lives in `AnalyzerService`, which
`main.py` imports and constructs but whose source file is not present;
`OpinionService.get_markets` is only the fetch+filter step.  Per spec
§4.2, the cache holds the current set of tradeable markets; `Refresh`
replaces the held set wholesale on success, and on failure the cache
retains its last-known-good set; `GetAll` is a read of the last
successful refresh (or the empty set if never refreshed). -/
structure MarketCatalogCache where
  held : List Market
deriving DecidableEq, Repr

/-- Modelled from the spec: `Refresh() -> (markets, err)` — replace the
held set wholesale on success; retain the last-known-good set on error. -/
def MarketCatalogCache.refresh (c : MarketCatalogCache)
    (fetch : Except String (List Market)) : MarketCatalogCache :=
  match fetch with
  | .ok markets => ⟨markets⟩
  | .error _ => c

/-- Modelled from the spec: `GetAll() -> markets` — read of the held set. -/
def MarketCatalogCache.getAll (c : MarketCatalogCache) : List Market :=
  c.held

/-- A cache that has never been refreshed holds the empty set (spec §4.2). -/
def MarketCatalogCache.initial : MarketCatalogCache := ⟨[]⟩

/-- Run a sequence of refresh outcomes against the initial cache. -/
def runRefreshes (fs : List (Except String (List Market))) :
    MarketCatalogCache :=
  fs.foldl MarketCatalogCache.refresh MarketCatalogCache.initial

/-- The payload of the last successful refresh in a sequence, if any. -/
def findLastOk : List (Except String (List Market)) → Option (List Market)
  | [] => none
  | f :: rest =>
    match findLastOk rest with
    | some markets => some markets
    | none =>
      match f with
      | .ok markets => some markets
      | .error _ => none

-- ========== Fixtures used by witnesses and counterexamples ==========

/-- A concrete raw market as the venue SDK would deliver it: activated,
with both token ids. -/
def rawGood : RawMarket :=
  { statusEnum := some "Activated", status := none,
    marketId := some "7", market_id := none, idKey := none,
    marketTitle := some "Will it rain?", market_title := none,
    question := none,
    yesLabel := none, no_label := none, noLabel := none, yes_label := none,
    yesPrice := some (mkRat 3 5), yes_price := none,
    change24h := some (mkRat 1 5), change_24h := none,
    cutoffAt := some "2026-01-01", end_date := none, cutoff_at := none,
    yesTokenId := some "0xAAA", yes_token_id := none,
    noTokenId := some "0xBBB", no_token_id := none,
    category := some "Weather", volume := some 100, liquidity := some 50 }

/-- The normalization of `rawGood` (checked by evaluation in the proofs
that use it). -/
def mGood : Market :=
  { id := "7", question := "Will it rain?", category := "Weather",
    volume := 100, liquidity := 50,
    outcomes := [
      { id := "7-yes", name := "YES", probability := mkRat 3 5,
        change24h := mkRat 1 5, tokenId := some "0xAAA" },
      { id := "7-no", name := "NO", probability := mkRat 2 5,
        change24h := mkRat (-1) 5, tokenId := some "0xBBB" }],
    endDate := "2026-01-01", status := "active",
    yesTokenId := some "0xAAA", noTokenId := some "0xBBB",
    yesLabel := "YES", noLabel := "NO" }

/-- A parsed oracle analysis that is valid except for a suggested price of
1.5, outside `[0.01, 0.99]`. -/
def overpricedParsed : ParsedAnalysis :=
  { market_id := some "7", sentiment := some "POSITIVE",
    impact_score := some (mkRat 9 10), confidence := some (mkRat 4 5),
    reasoning_steps := none,
    trade_decision := some
      { action := some "BUY", side := some "YES",
        suggested_price := some (mkRat 3 2), size_usdc := some 5 },
    human_readable_reason := some "strong signal" }

-- ========== Helper lemmas ==========

/-- Inversion for `mkOutcome`. -/
theorem mkOutcome_eq_some {id name : String} {p c : Rat}
    {tok : Option String} {o : Outcome}
    (h : mkOutcome id name p c tok = some o) : o = ⟨id, name, p, c, tok⟩ := by
  unfold mkOutcome at h
  split at h
  · exact (Option.some.inj h).symm
  · exact absurd h (by simp)

/-- Inversion for `mkMarket`. -/
theorem mkMarket_eq_some {id question category : String}
    {volume liquidity : Rat} {outcomes : List Outcome}
    {endDate status : String} {ytok ntok : Option String}
    {ylab nlab : String} {m : Market}
    (h : mkMarket id question category volume liquidity outcomes endDate
      status ytok ntok ylab nlab = some m) :
    m = ⟨id, question, category, volume, liquidity, outcomes, endDate,
         status, ytok, ntok, ylab, nlab⟩ := by
  unfold mkMarket at h
  split at h
  · exact (Option.some.inj h).symm
  · exact absurd h (by simp)

/-- Generalized form of the catalog-cache property: folding a refresh
sequence over any starting cache reads back the last successful payload,
or the starting cache's content if none succeeded. -/
theorem foldl_refresh_getAll (fs : List (Except String (List Market)))
    (c : MarketCatalogCache) :
    (fs.foldl MarketCatalogCache.refresh c).getAll
      = (findLastOk fs).getD c.getAll := by
  induction fs generalizing c with
  | nil => rfl
  | cons f rest ih =>
    simp only [List.foldl_cons, findLastOk]
    rw [ih]
    cases findLastOk rest with
    | some markets => rfl
    | none =>
      cases f with
      | ok markets => rfl
      | error e => rfl

-- ========== Claim theorems ==========

/-- C2: For every call to `OpenAIService.analyze_market_impact` on a tweet
and market, if the oracle call fails (exception, or empty response
content), the call returns exactly the safe default judgment:
sentiment NEUTRAL, impact score 0, confidence 0, and a trade decision
with action HOLD, side null, suggested price 0.5, size 0 USDC, with
market id equal to the input market's id; being a total function of the
reply, it never raises. -/
theorem analyze_market_impact_failure_default (market : Market) :
    OpenAIService.analyze_market_impact market LLMReply.raises
      = OpenAIService._get_default_analysis market.id ∧
    OpenAIService.analyze_market_impact market LLMReply.emptyContent
      = OpenAIService._get_default_analysis market.id ∧
    (OpenAIService._get_default_analysis market.id).sentiment = "NEUTRAL" ∧
    (OpenAIService._get_default_analysis market.id).impact_score = 0 ∧
    (OpenAIService._get_default_analysis market.id).confidence = 0 ∧
    (OpenAIService._get_default_analysis market.id).trade_decision
      = ⟨"HOLD", none, 1/2, 0⟩ ∧
    (OpenAIService._get_default_analysis market.id).market_id = market.id :=
  ⟨rfl, rfl, rfl, rfl, rfl, rfl, rfl⟩

/-- C3: For every call to `OpenAIService.filter_relevant_markets`, if the
oracle call fails (exception, or empty response content), the call
returns a result with `is_relevant = false` and
`relevant_market_ids = []`; being a total function of the reply, it
never raises. -/
theorem filter_relevant_markets_failure_empty :
    OpenAIService.filter_relevant_markets LLMReply.raises
      = ⟨false, [], "Analysis failed"⟩ ∧
    OpenAIService.filter_relevant_markets LLMReply.emptyContent
      = ⟨false, [], "No response from LLM"⟩ ∧
    (OpenAIService.filter_relevant_markets LLMReply.raises).is_relevant
      = false ∧
    (OpenAIService.filter_relevant_markets
      LLMReply.raises).relevant_market_ids = [] ∧
    (OpenAIService.filter_relevant_markets LLMReply.emptyContent).is_relevant
      = false ∧
    (OpenAIService.filter_relevant_markets
      LLMReply.emptyContent).relevant_market_ids = [] :=
  ⟨rfl, rfl, rfl, rfl, rfl, rfl⟩

/-- C4: With a list containing exactly one actionable impact,
`OpenAIService.select_best_market` returns the sole candidate with
`confidence_in_selection = 1.0` and `selected_market_id` equal to that
impact's marketId, and the oracle is never invoked (the result is the
same for every oracle behavior); with an empty list it returns no
selection. -/
theorem select_best_market_trivial_short_circuit (imp : MarketImpact)
    (oracle oracle2 : Unit → LLMReply ParsedSelection) :
    OpenAIService.select_best_market [imp] oracle
      = some ⟨imp.marketId, "Only one actionable market available",
              "No comparison needed - single candidate", 1⟩ ∧
    OpenAIService.select_best_market [imp] oracle
      = OpenAIService.select_best_market [imp] oracle2 ∧
    OpenAIService.select_best_market [] oracle = none :=
  ⟨rfl, rfl, rfl⟩

/-- C7: On a failed refresh the Market Catalog Cache retains its
last-known-good set, and a read returns the payload of the last
successful refresh in the history, or the empty set if none ever
succeeded.  (The cache holder is spec-modelled: see
`MarketCatalogCache`.) -/
theorem catalog_cache_retains_last_good (c : MarketCatalogCache)
    (e : String) (fs : List (Except String (List Market))) :
    (c.refresh (Except.error e)).getAll = c.getAll ∧
    (runRefreshes fs).getAll = (findLastOk fs).getD [] :=
  ⟨rfl, foldl_refresh_getAll fs MarketCatalogCache.initial⟩

/-- C8 (counterexample): an oracle reply parsing to six market ids is
passed through: the returned `relevant_market_ids` has length 6, which
violates the claimed bound of 5. -/
theorem filter_relevant_markets_six_ids :
    (OpenAIService.filter_relevant_markets (LLMReply.json
      ⟨some true, some ["1", "2", "3", "4", "5", "6"],
       some "six ids"⟩)).relevant_market_ids.length = 6 ∧
    ¬ (OpenAIService.filter_relevant_markets (LLMReply.json
      ⟨some true, some ["1", "2", "3", "4", "5", "6"],
       some "six ids"⟩)).relevant_market_ids.length ≤ 5 := by
  decide

/-- C8 (amended): `filter_relevant_markets` returns the oracle's parsed
`relevant_market_ids` unchanged — no length bound is enforced (the ≤5
bound is only requested in the prompt), so the result is bounded by 5
exactly when the oracle's list is; on oracle failure or empty content
the list is empty. -/
theorem filter_relevant_markets_passthrough (b : Bool) (ids : List String)
    (s : String) :
    OpenAIService.filter_relevant_markets
      (LLMReply.json ⟨some b, some ids, some s⟩) = ⟨b, ids, s⟩ ∧
    (OpenAIService.filter_relevant_markets
      LLMReply.raises).relevant_market_ids.length = 0 ∧
    (OpenAIService.filter_relevant_markets
      LLMReply.emptyContent).relevant_market_ids.length = 0 :=
  ⟨rfl, rfl, rfl⟩

/-- C5 (counterexample): an oracle-suggested price of 1.5 is not clamped:
`TradeDecision` validation rejects it (`mkTradeDecision = none`), and an
otherwise-valid analysis carrying it is replaced wholesale by the safe
default — the analysis fails to the default rather than proceeding with
a clamped price (the default's price is 0.5, not the clamp value 0.99). -/
theorem suggested_price_not_clamped :
    mkTradeDecision ⟨some "BUY", some "YES", some (mkRat 3 2), some 5⟩
      = none ∧
    OpenAIService.analyze_market_impact mGood (LLMReply.json overpricedParsed)
      = OpenAIService._get_default_analysis "7" ∧
    (OpenAIService.analyze_market_impact mGood
      (LLMReply.json overpricedParsed)).trade_decision.suggestedPrice
      ≠ mkRat 99 100 := by
  with_unfolding_all decide

/-- C5 (amended): an oracle-suggested price outside [0.01, 0.99] is never
clamped: `TradeDecision` validation rejects it, making the analysis fall
back to the safe default judgment; consequently every successfully
constructed `TradeDecision` carries its suggested price unchanged and
within [0.01, 0.99], so no out-of-range price ever reaches the venue
adapter. -/
theorem trade_decision_price_validated (p : ParsedTradeDecision)
    (td : TradeDecision) (h : mkTradeDecision p = some td) :
    (1 : Rat)/100 ≤ td.suggestedPrice ∧
    td.suggestedPrice ≤ (99 : Rat)/100 ∧
    p.suggested_price = some td.suggestedPrice := by
  cases ha : p.action with
  | none => simp [mkTradeDecision, ha] at h
  | some a =>
    cases hsp : p.suggested_price with
    | none => simp [mkTradeDecision, ha, hsp] at h
    | some sp =>
      simp only [mkTradeDecision, ha, hsp] at h
      split at h
      · rename_i hcond
        obtain rfl := Option.some.inj h
        simp only [Bool.and_eq_true, decide_eq_true_eq] at hcond
        exact ⟨hcond.1.2, hcond.2, rfl⟩
      · exact absurd h (by simp)

/-- C5 (witness): the amended theorem applied at a concrete in-range
parse. -/
theorem trade_decision_price_validated_witness :
    (1 : Rat)/100
      ≤ (TradeDecision.mk "BUY" (some "YES") (mkRat 1 2) 5).suggestedPrice ∧
    (TradeDecision.mk "BUY" (some "YES") (mkRat 1 2) 5).suggestedPrice
      ≤ (99 : Rat)/100 ∧
    (ParsedTradeDecision.mk (some "BUY") (some "YES") (some (mkRat 1 2))
      (some 5)).suggested_price
      = some (TradeDecision.mk "BUY" (some "YES")
          (mkRat 1 2) 5).suggestedPrice :=
  trade_decision_price_validated
    ⟨some "BUY", some "YES", some (mkRat 1 2), some 5⟩
    ⟨"BUY", some "YES", mkRat 1 2, 5⟩
    (by with_unfolding_all decide)

/-- C1 (counterexample): when order placement raises an exception whose
message is empty, the returned execution has `status = "failed"` but its
error message is the empty string — not the non-empty message the claim
requires. -/
theorem place_order_empty_error_message :
    (OpinionService.place_order "7" "YES" 5 (mkRat 1 2) (some "0xTOK")
      (fun _ => VenueResult.raises "")).2.status = "failed" ∧
    (OpinionService.place_order "7" "YES" 5 (mkRat 1 2) (some "0xTOK")
      (fun _ => VenueResult.raises "")).2.error = some "" := by
  with_unfolding_all decide

/-- C1 (amended): `place_order` never raises: on every failure (missing
token_id, venue SDK errno != 0, or any exception during order placement)
it returns a `TradeExecution` with `status = "failed"` and the error
field set — the message is non-empty except in the exception branch,
where it equals the (possibly empty) exception message — and it returns
`status = "confirmed"` exactly when the venue accepted the submitted
order with errno == 0. -/
theorem place_order_failure_policy (market_id side : String)
    (amount price : Rat) (token_id : Option String)
    (venue : PlaceOrderDataInput → VenueResult) :
    ((OpinionService.place_order market_id side amount price token_id
        venue).2.status = "confirmed" ∨
      ((OpinionService.place_order market_id side amount price token_id
          venue).2.status = "failed" ∧
        (OpinionService.place_order market_id side amount price token_id
          venue).2.error ≠ none)) ∧
    ((OpinionService.place_order market_id side amount price token_id
        venue).2.status = "confirmed" ↔
      ∃ inp errmsg dat,
        (OpinionService.place_order market_id side amount price token_id
          venue).1 = some inp ∧
        venue inp = VenueResult.responds 0 errmsg dat) := by
  cases htok : truthyS token_id with
  | none => simp [OpinionService.place_order, htok]
  | some tok =>
    cases hmid : strToInt? market_id with
    | none => simp [OpinionService.place_order, htok, hmid]
    | some mid =>
      cases hv : venue ⟨mid, tok, OrderSide.BUY, "0", amount,
          OrderType.MARKET_ORDER⟩ with
      | raises msg =>
        simp [OpinionService.place_order, htok, hmid, hv]
      | responds errno errmsg dat =>
        by_cases h0 : errno = 0
        · subst h0
          simp [OpinionService.place_order, htok, hmid, hv]
        · simp [OpinionService.place_order, htok, hmid, hv, h0]

/-- C9: whenever `place_order` submits an order to the venue SDK, the
submitted order has side `OrderSide.BUY`, order type `MARKET_ORDER`, and
price `"0"`, regardless of the `side` argument (and hence regardless of
whether the originating decision was BUY or SELL); the `side` argument
influences only the `side` field of the returned `TradeExecution`. -/
theorem place_order_submits_market_buy (market_id side side2 : String)
    (amount price : Rat) (token_id : Option String)
    (venue : PlaceOrderDataInput → VenueResult) (inp : PlaceOrderDataInput)
    (h : (OpinionService.place_order market_id side amount price token_id
      venue).1 = some inp) :
    inp.side = OrderSide.BUY ∧
    inp.orderType = OrderType.MARKET_ORDER ∧
    inp.price = "0" ∧
    (OpinionService.place_order market_id side amount price token_id
      venue).2.side = side ∧
    (OpinionService.place_order market_id side2 amount price token_id
      venue).1 = some inp ∧
    (OpinionService.place_order market_id side2 amount price token_id
      venue).2
      = { (OpinionService.place_order market_id side amount price token_id
          venue).2 with side := side2 } := by
  cases htok : truthyS token_id with
  | none => simp [OpinionService.place_order, htok] at h
  | some tok =>
    cases hmid : strToInt? market_id with
    | none => simp [OpinionService.place_order, htok, hmid] at h
    | some mid =>
      cases hv : venue ⟨mid, tok, OrderSide.BUY, "0", amount,
          OrderType.MARKET_ORDER⟩ with
      | raises msg =>
        simp only [OpinionService.place_order, htok, hmid, hv] at h ⊢
        obtain rfl := Option.some.inj h
        refine ⟨?_, ?_, ?_, ?_, ?_, ?_⟩ <;> first | rfl | trivial
      | responds errno errmsg dat =>
        by_cases h0 : errno = 0
        · subst h0
          simp only [OpinionService.place_order, htok, hmid, hv,
            if_pos rfl] at h ⊢
          obtain rfl := Option.some.inj h
          refine ⟨?_, ?_, ?_, ?_, ?_, ?_⟩ <;> first | rfl | trivial
        · simp only [OpinionService.place_order, htok, hmid, hv,
            if_neg h0] at h ⊢
          obtain rfl := Option.some.inj h
          refine ⟨?_, ?_, ?_, ?_, ?_, ?_⟩ <;> first | rfl | trivial

/-- C9 (witness): the theorem applied at a concrete accepted order. -/
theorem place_order_submits_market_buy_witness :
    (PlaceOrderDataInput.mk 7 "0xTOK" OrderSide.BUY "0" 5
      OrderType.MARKET_ORDER).side = OrderSide.BUY ∧
    (PlaceOrderDataInput.mk 7 "0xTOK" OrderSide.BUY "0" 5
      OrderType.MARKET_ORDER).orderType = OrderType.MARKET_ORDER ∧
    (PlaceOrderDataInput.mk 7 "0xTOK" OrderSide.BUY "0" 5
      OrderType.MARKET_ORDER).price = "0" ∧
    (OpinionService.place_order "7" "YES" 5 (mkRat 1 2) (some "0xTOK")
      (fun _ => VenueResult.responds 0 none none)).2.side = "YES" ∧
    (OpinionService.place_order "7" "NO" 5 (mkRat 1 2) (some "0xTOK")
      (fun _ => VenueResult.responds 0 none none)).1
      = some (PlaceOrderDataInput.mk 7 "0xTOK" OrderSide.BUY "0" 5
          OrderType.MARKET_ORDER) ∧
    (OpinionService.place_order "7" "NO" 5 (mkRat 1 2) (some "0xTOK")
      (fun _ => VenueResult.responds 0 none none)).2
      = { (OpinionService.place_order "7" "YES" 5 (mkRat 1 2) (some "0xTOK")
          (fun _ => VenueResult.responds 0 none none)).2 with side := "NO" } :=
  place_order_submits_market_buy "7" "YES" "NO" 5 (mkRat 1 2) (some "0xTOK")
    (fun _ => VenueResult.responds 0 none none)
    ⟨7, "0xTOK", OrderSide.BUY, "0", 5, OrderType.MARKET_ORDER⟩
    (by decide)

/-- A raw market that `_normalize_market` accepts cannot have a
resolved/canceled/closed status: the first guard returns `None` when
`is_closed` holds. -/
theorem normalize_some_not_closed (raw : RawMarket) (m : Market)
    (h : OpinionService._normalize_market raw = some m) :
    strContains (OpinionService.normStatusStr raw) "resolved" = false ∧
    strContains (OpinionService.normStatusStr raw) "canceled" = false ∧
    strContains (OpinionService.normStatusStr raw) "closed" = false := by
  simp only [OpinionService._normalize_market] at h
  split at h
  · exact absurd h (by simp)
  · rename_i hcond
    simp only [Bool.or_eq_true, not_or, Bool.not_eq_true] at hcond
    exact ⟨hcond.2.1.1, hcond.2.1.2, hcond.2.2⟩

/-- C6: every market returned by `get_markets` comes from a raw venue
record whose status (as read by `_is_activated`) contains `'activated'`
and whose two token ids are present and non-empty; records in
resolved/canceled/closed status or lacking trade tokens never appear,
and the returned market itself carries both token ids non-empty. -/
theorem get_markets_only_tradeable (resp : Except String (List RawMarket))
    (m : Market) (hm : m ∈ OpinionService.get_markets resp) :
    ∃ raws raw, resp = Except.ok raws ∧ raw ∈ raws ∧
      strContains (OpinionService.isActStatusStr raw) "activated" = true ∧
      optTruthy raw.yesTokenId = true ∧
      optTruthy raw.noTokenId = true ∧
      strContains (OpinionService.normStatusStr raw) "resolved" = false ∧
      strContains (OpinionService.normStatusStr raw) "canceled" = false ∧
      strContains (OpinionService.normStatusStr raw) "closed" = false ∧
      OpinionService._normalize_market raw = some m ∧
      optTruthy m.yesTokenId = true ∧
      optTruthy m.noTokenId = true := by
  cases resp with
  | error e => simp [OpinionService.get_markets] at hm
  | ok raws =>
    simp only [OpinionService.get_markets] at hm
    rw [List.mem_filterMap] at hm
    obtain ⟨raw, hraw, hf⟩ := hm
    refine ⟨raws, raw, rfl, hraw, ?_⟩
    split at hf
    · rename_i hact
      revert hf
      cases hn : OpinionService._normalize_market raw with
      | none => intro hf; exact Option.noConfusion hf
      | some market =>
        intro hf
        by_cases htoks :
            (optTruthy market.yesTokenId && optTruthy market.noTokenId) = true
        · have hm2 : market = m := by simpa [htoks] using hf
          subst hm2
          simp only [Bool.and_eq_true] at htoks
          simp only [OpinionService._is_activated, Bool.and_eq_true] at hact
          obtain ⟨hc1, hc2, hc3⟩ := normalize_some_not_closed raw market hn
          exact ⟨hact.1, hact.2.1, hact.2.2, hc1, hc2, hc3, rfl,
                 htoks.1, htoks.2⟩
        · exact absurd hf (by simp [htoks])
    · exact absurd hf (by simp)

/-- C6 (witness): the theorem applied at a concrete activated raw market. -/
theorem get_markets_only_tradeable_witness :
    ∃ raws raw,
      (Except.ok [rawGood] : Except String (List RawMarket))
        = Except.ok raws ∧ raw ∈ raws ∧
      strContains (OpinionService.isActStatusStr raw) "activated" = true ∧
      optTruthy raw.yesTokenId = true ∧
      optTruthy raw.noTokenId = true ∧
      strContains (OpinionService.normStatusStr raw) "resolved" = false ∧
      strContains (OpinionService.normStatusStr raw) "canceled" = false ∧
      strContains (OpinionService.normStatusStr raw) "closed" = false ∧
      OpinionService._normalize_market raw = some mGood ∧
      optTruthy mGood.yesTokenId = true ∧
      optTruthy mGood.noTokenId = true :=
  get_markets_only_tradeable (Except.ok [rawGood]) mGood
    (by with_unfolding_all decide)

/-- C10: every market `_normalize_market` returns has exactly two
outcomes, the second outcome's probability is 1 minus the first's, the
second outcome's 24h change is the negation of the first's, and the
market status is always `"active"`. -/
theorem normalize_market_two_outcomes (raw : RawMarket) (m : Market)
    (h : OpinionService._normalize_market raw = some m) :
    m.outcomes.length = 2 ∧
    (∃ o1 o2, m.outcomes = [o1, o2] ∧
      o2.probability = 1 - o1.probability ∧
      o2.change24h = -o1.change24h) ∧
    m.status = "active" := by
  simp only [OpinionService._normalize_market] at h
  split at h
  · exact absurd h (by simp)
  · rw [Option.bind_eq_some] at h
    obtain ⟨o1, ho1, h⟩ := h
    rw [Option.bind_eq_some] at h
    obtain ⟨o2, ho2, h⟩ := h
    obtain rfl := mkMarket_eq_some h
    obtain rfl := mkOutcome_eq_some ho1
    obtain rfl := mkOutcome_eq_some ho2
    exact ⟨rfl, ⟨_, _, rfl, rfl, rfl⟩, rfl⟩

/-- C10 (witness): the theorem applied at a concrete raw market. -/
theorem normalize_market_two_outcomes_witness :
    mGood.outcomes.length = 2 ∧
    (∃ o1 o2, mGood.outcomes = [o1, o2] ∧
      o2.probability = 1 - o1.probability ∧
      o2.change24h = -o1.change24h) ∧
    mGood.status = "active" :=
  normalize_market_two_outcomes rawGood mGood (by with_unfolding_all decide)
